import Mathlib

/-
  Shallow embedding of the flapjack-icinga2 streaming pipeline
  (src/github.com/sol1/flapjack-icinga2/api_client.go), centred on
  ApiClient.processResponse (lines 130-240) and the goroutine body of
  ApiClient.Connect (lines 99-126).

  Modelling conventions:
  * A Go interface value produced by encoding/json `Decode(&data)` with
    `data interface` is modelled by `GoVal`: JSON objects decode to
    map[string]interface (constructor `obj`), JSON arrays to
    []interface (constructor `arr`), strings/numbers/bools/null to the
    corresponding scalar constructors.  The constructor `strArr` models a
    Go value of dynamic type []string; encoding/json never produces one,
    it exists so that the source's `val.([]string)` type assertion
    (line 216) can be stated honestly.
  * JSON numbers decode to float64 in Go; every number the pipeline
    inspects (state codes, timestamps) is integral, so numbers are
    modelled as `Int` and the `int64(timestamp)` conversion (line 223) is
    the identity on in-range values.
  * A Go type assertion without the comma-ok form panics when it fails;
    panics are modelled as the explicit outcome `ProcResult.panic`, since
    a panicking goroutine is observably different from a returned error.
  * Network effects are supplied by the environment: the stream body and
    each lookup-response body are lists of decoder results
    (`none` = a Decode call that returns a non-nil error), enrichment
    round trips are a list of `Option HttpResp` consumed in request order
    (`none` = client.Do returns a non-nil error, hence a nil response and
    a nil-pointer dereference at `resp.Body`), and the sink
    (flapjack.Transport.SendVersionQueue) is a list of Bool success
    flags consumed per dispatch.
-/

namespace Icinga

/-- A Go interface value as produced by encoding/json when decoding into
an untyped interface.  `strArr` is the dynamic type []string, which the
JSON decoder never produces (arrays always decode to []interface). -/
inductive GoVal where
  | null
  | bool (b : Bool)
  | num (n : Int)
  | str (s : String)
  | arr (elems : List GoVal)
  | strArr (elems : List String)
  | obj (fields : List (String × GoVal))

/-- Go map indexing `m[k]` on a decoded JSON object: the first binding of
the key, `none` when the key is absent (the nil interface). -/
def getKey : List (String × GoVal) → String → Option GoVal
  | [], _ => none
  | (k, v) :: rest, key => if k = key then some v else getKey rest key

/-- Go type assertion `x.(map[string]interface)`; `none` means the
assertion fails and panics at the source's call sites. -/
def asObj? : Option GoVal → Option (List (String × GoVal))
  | some (.obj fs) => some fs
  | _ => none

/-- Go type assertion `x.(float64)`. -/
def asNum? : Option GoVal → Option Int
  | some (.num n) => some n
  | _ => none

/-- Go type assertion `x.(string)`. -/
def asStr? : Option GoVal → Option String
  | some (.str s) => some s
  | _ => none

/-- Go type assertion `x.([]interface)`. -/
def asArr? : Option GoVal → Option (List GoVal)
  | some (.arr es) => some es
  | _ => none

/-- Go type assertion `x.([]string)` (api_client.go line 216).  It only
succeeds on a value of dynamic type []string, which JSON decoding never
yields. -/
def asStrArr? : Option GoVal → Option (List String)
  | some (.strArr xs) => some xs
  | _ => none

/-- Go fmt "%s" applied to an interface value: a string prints as itself
and a nil interface (missing key) prints as "%!s(<nil>)".  Other dynamic
types print a Go diagnostic of shape "%!s(T=v)", abstracted here by a
fixed marker; no run stated below formats a non-string with "%s". -/
def goFmtS : Option GoVal → String
  | some (.str s) => s
  | none => "%!s(<nil>)"
  | some _ => "%!s(non-string)"

/-- Go fmt "%s" applied to a []string value: elements separated by
spaces inside brackets; the nil slice prints as "[]". -/
def goFmtStrSlice (xs : List String) : String :=
  "[" ++ String.intercalate " " xs ++ "]"

/-- The Details field, fmt.Sprintf "tags: %s" tags (line 226). -/
def detailsOf (tags : List String) : String :=
  "tags: " ++ goFmtStrSlice tags

/-- flapjack.Event as populated at api_client.go lines 219-228. -/
structure Event where
  entity : String
  check : String
  type : String
  time : Int
  state : String
  summary : String
  details : String
  tags : List String
deriving DecidableEq, Repr

/-- A Go runtime panic raised by processResponse.  `typeAssert site`
records which unchecked assertion failed, `indexOutOfRange` is
`result[0]` on an empty slice (line 210), `nilDeref` is `resp.Body` on
the nil response after an ignored client.Do error (lines 201-202). -/
inductive GoPanic where
  | typeAssert (site : String)
  | indexOutOfRange
  | nilDeref
deriving DecidableEq, Repr

/-- The error values processResponse can return: a json decode error
(stream or lookup body), fmt.Errorf "Unknown state %.1f" (line 177),
fmt.Errorf "Unknown type %s" (line 236), or the SendVersionQueue error
(lines 231-234). -/
inductive ProcError where
  | jsonDecodeError
  | unknownState (n : Int)
  | unknownType (s : String)
  | sinkError
deriving DecidableEq, Repr

/-- How one call to processResponse ends: a nil return, a non-nil error
return, or a runtime panic. -/
inductive ProcResult where
  | ok
  | err (e : ProcError)
  | panic (p : GoPanic)
deriving DecidableEq, Repr

/-- An enrichment HTTP response: its status code and the sequence of
values its body yields to a json.Decoder (`none` = decode error). -/
structure HttpResp where
  status : Nat
  body : List (Option GoVal)

/-- The per-event data computed before the enrichment request:
the decoded object and check_result maps, the asserted timestamp and
resolved state string, and the service / serviceType / name triple of
lines 181-194. -/
structure Pending where
  m : List (String × GoVal)
  checkResult : List (String × GoVal)
  timestamp : Int
  state : String
  service : String
  sType : String
  name : String

/-- The state switch of lines 162-174: `var state string` stays "" on
the default branch. -/
def stateOf (n : Int) : String :=
  if n = 0 then "ok"
  else if n = 1 then "warning"
  else if n = 2 then "critical"
  else if n = 3 then "unknown"
  else ""

/-- varURL, fmt.Sprintf "https://%s/v1/objects/%s/%s" (line 196). -/
def varUrl (server sType name : String) : String :=
  "https://" ++ server ++ "/v1/objects/" ++ sType ++ "/" ++ name

/-- Lines 150-196 of processResponse: the map assertion on the decoded
value, the type switch, the check_result / timestamp / state assertions,
the unknown-state return, and the service / serviceType / name
selection.  `.error r` means the loop iteration ends with `r`. -/
def preStep (j : GoVal) : Except ProcResult Pending :=
  match asObj? (some j) with
  | none => .error (.panic (.typeAssert "stream value as map"))
  | some m =>
    match getKey m "type" with
    | some (.str t) =>
      if t = "CheckResult" ∨ t = "StateChange" then
        match asObj? (getKey m "check_result") with
        | none => .error (.panic (.typeAssert "check_result as map"))
        | some checkResult =>
          match asNum? (getKey m "timestamp") with
          | none => .error (.panic (.typeAssert "timestamp as float64"))
          | some ts =>
            match asNum? (getKey checkResult "state") with
            | none => .error (.panic (.typeAssert "state as float64"))
            | some st =>
              let state := stateOf st
              if state = "" then .error (.err (.unknownState st))
              else
                match getKey m "service" with
                | some serv =>
                  match asStr? (some serv) with
                  | none => .error (.panic (.typeAssert "service as string"))
                  | some s =>
                    .ok ⟨m, checkResult, ts, state, s, "services",
                         goFmtS (getKey m "host") ++ "!" ++ goFmtS (getKey m "service")⟩
                | none =>
                  match asStr? (getKey m "host") with
                  | none => .error (.panic (.typeAssert "host as string"))
                  | some h =>
                    .ok ⟨m, checkResult, ts, state, "HOST", "hosts", h⟩
      else .error (.err (.unknownType (goFmtS (some (.str t)))))
    | v => .error (.err (.unknownType (goFmtS v)))

/-- Lines 198-228: the enrichment round trip and event construction.
The response status is never inspected, faithfully to the source.  On
success it returns the built event together with the REMAINDER of the
lookup-response body: line 202 reassigns the loop's json.Decoder to this
body, so the remainder is what the next loop iteration reads. -/
def postLookup (p : Pending) (lk : Option HttpResp) :
    Except ProcResult (Event × List (Option GoVal)) :=
  match lk with
  | none => .error (.panic .nilDeref)
  | some resp =>
    match resp.body with
    | [] => .error (.err .jsonDecodeError)
    | none :: _ => .error (.err .jsonDecodeError)
    | some d :: bodyRest =>
      match asObj? (some d) with
      | none => .error (.panic (.typeAssert "lookup envelope as map"))
      | some extra =>
        match asArr? (getKey extra "results") with
        | none => .error (.panic (.typeAssert "results as slice"))
        | some results =>
          match results with
          | [] => .error (.panic .indexOutOfRange)
          | r0 :: _ =>
            match asObj? (some r0) with
            | none => .error (.panic (.typeAssert "results[0] as map"))
            | some first =>
              match asObj? (getKey first "attrs") with
              | none => .error (.panic (.typeAssert "attrs as map"))
              | some attrs =>
                match asObj? (getKey attrs "vars") with
                | none => .error (.panic (.typeAssert "vars as map"))
                | some vars =>
                  match
                    (match getKey vars "tags" with
                     | some v =>
                       match asStrArr? (some v) with
                       | some xs => Except.ok xs
                       | none =>
                         Except.error (ProcResult.panic (.typeAssert "tags as string slice"))
                     | none => Except.ok []) with
                  | .error r => .error r
                  | .ok tags =>
                    match asStr? (getKey p.m "host") with
                    | none => .error (.panic (.typeAssert "host as string"))
                    | some entity =>
                      match asStr? (getKey p.checkResult "output") with
                      | none => .error (.panic (.typeAssert "output as string"))
                      | some summary =>
                        .ok (⟨entity, p.service, "service", p.timestamp, p.state,
                              summary, detailsOf tags, tags⟩, bodyRest)

/-- The observable outcome of one processResponse call: how it ended,
the events successfully handed to the sink in order, and the enrichment
URLs requested in order. -/
structure ProcOut where
  result : ProcResult
  events : List Event
  urls : List String
deriving DecidableEq, Repr

/-- The decode loop of processResponse (lines 140-239).  The first list
argument is the enrichment round trips still available, the second is
the sequence the CURRENT json.Decoder yields, the third the sink
outcomes.  On the success path the recursive call continues on the
remainder of the lookup-response body, exactly as the source's
reassignment `decoder = json.NewDecoder(resp.Body)` (line 202) does;
the rest of the original stream is abandoned. -/
def procLoop (server : String) :
    List (Option HttpResp) → List (Option GoVal) → List Bool → ProcOut
  | _, [], _ => ⟨.ok, [], []⟩
  | _, none :: _, _ => ⟨.err .jsonDecodeError, [], []⟩
  | [], some j :: _, _ =>
    match preStep j with
    | .error r => ⟨r, [], []⟩
    | .ok p => ⟨.panic .nilDeref, [], [varUrl server p.sType p.name]⟩
  | lk :: lkRest, some j :: _, sends =>
    match preStep j with
    | .error r => ⟨r, [], []⟩
    | .ok p =>
      match postLookup p lk with
      | .error r => ⟨r, [], [varUrl server p.sType p.name]⟩
      | .ok (ev, bodyRest) =>
        if sends.headD true then
          let out := procLoop server lkRest bodyRest sends.tail
          ⟨out.result, ev :: out.events, varUrl server p.sType p.name :: out.urls⟩
        else ⟨.err .sinkError, [], [varUrl server p.sType p.name]⟩

/-- One call to ApiClient.processResponse: stream is the value sequence
the response-body decoder yields, lookups the enrichment round trips in
request order, sends the sink outcomes in dispatch order. -/
def processResponse (server : String) (stream : List (Option GoVal))
    (lookups : List (Option HttpResp)) (sends : List Bool) : ProcOut :=
  procLoop server lookups stream sends

/-! Connect (api_client.go lines 84-128).  The goroutine body loops on
client.Do; a 200 response is handed to processResponse, any other
status becomes fmt.Errorf "API HTTP request failed", and a Do error is
kept as is.  Whenever the iteration's error is non-nil it is sent on
the `finished` channel and the loop stops; otherwise the loop silently
re-issues the request. -/

/-- The observable outcome of one `client.Do` iteration inside Connect:
a transport error from Do, a non-200 status with the read body, or a
200 response whose processResponse call returned the given error
(`none` = nil return). -/
inductive IterOutcome where
  | doFail
  | badStatus (status : Nat) (body : String)
  | okStream (procErr : Option ProcError)
deriving DecidableEq, Repr

/-- The error value sent on the `finished` channel. -/
inductive ConnErr where
  | httpDo
  | apiHttpFailed (status : Nat) (body : String)
  | fromStream (e : ProcError)
deriving DecidableEq, Repr

/-- The value of `err` at line 121 for one loop iteration. -/
def iterErr : IterOutcome → Option ConnErr
  | .doFail => some .httpDo
  | .badStatus st b => some (.apiHttpFailed st b)
  | .okStream none => none
  | .okStream (some e) => some (.fromStream e)

/-- The `for done == false` loop of Connect over a sequence of
iteration outcomes.  `(some e, n)` means the n-th request's iteration
produced the non-nil error e, which was sent on `finished` before the
loop stopped; `(none, n)` means all n modelled requests finished with a
nil error and the loop is still running, about to re-issue the
request. -/
def connectLoop : List IterOutcome → Option ConnErr × Nat
  | [] => (none, 0)
  | it :: rest =>
    match iterErr it with
    | some e => (some e, 1)
    | none => ((connectLoop rest).1, (connectLoop rest).2 + 1)

/-! Concrete inputs used by the claims. -/

/-- A CheckResult stream value carrying a service field. -/
def mkSvcCheck (h s : String) (ts st : Int) (out : String) : GoVal :=
  .obj [("type", .str "CheckResult"), ("host", .str h), ("service", .str s),
        ("timestamp", .num ts),
        ("check_result", .obj [("state", .num st), ("output", .str out)])]

/-- A host-level CheckResult stream value (no service field). -/
def mkHostCheck (h : String) (ts st : Int) (out : String) : GoVal :=
  .obj [("type", .str "CheckResult"), ("host", .str h),
        ("timestamp", .num ts),
        ("check_result", .obj [("state", .num st), ("output", .str out)])]

/-- A lookup success envelope results[0].attrs.vars with the given vars
fields. -/
def envelope (vs : List (String × GoVal)) : GoVal :=
  .obj [("results", .arr [.obj [("attrs", .obj [("vars", .obj vs)])]])]

/-- A 200 lookup response whose vars object is empty (no tags field). -/
def respNoTags : HttpResp :=
  ⟨200, [some (envelope [])]⟩

/-- The stream value of the spec's worked example: a CheckResult for
host h1, service s1, timestamp 1000, state 2, output "disk full". -/
def c1StreamVal : GoVal :=
  mkSvcCheck "h1" "s1" 1000 2 "disk full"

/-- The lookup envelope of the spec's worked example: one result whose
vars.tags is the one-element array ["prod"]; as a decoded JSON array it
has dynamic type []interface, holding the string "prod". -/
def c1LookupVal : GoVal :=
  envelope [("tags", .arr [.str "prod"])]

/-! Helper lemmas shared by the claim theorems. -/

/-- Every event postLookup builds carries the fixed Type field
"service" (api_client.go line 222). -/
theorem postLookup_ok_type (p : Pending) (lk : Option HttpResp) (ev : Event)
    (rest : List (Option GoVal)) (h : postLookup p lk = .ok (ev, rest)) :
    ev.type = "service" := by
  unfold postLookup at h
  repeat' split at h
  all_goals try simp_all
  obtain ⟨h1, -⟩ := h
  subst h1
  rfl

/-- Every event the decode loop hands to the sink has type "service",
for any stream, lookup environment and sink behaviour. -/
theorem procLoop_type (server : String) :
    ∀ (lks : List (Option HttpResp)) (stream : List (Option GoVal)) (sends : List Bool)
      (ev : Event), ev ∈ (procLoop server lks stream sends).events → ev.type = "service" := by
  intro lks
  induction lks with
  | nil =>
    intro stream sends ev h
    match stream with
    | [] => simp [procLoop] at h
    | none :: _ => simp [procLoop] at h
    | some j :: rest =>
      cases hp : preStep j <;> simp [procLoop, hp] at h
  | cons lk lkRest ih =>
    intro stream sends ev h
    match stream with
    | [] => simp [procLoop] at h
    | none :: _ => simp [procLoop] at h
    | some j :: rest =>
      rcases hp : preStep j with r | p
      · simp [procLoop, hp] at h
      · rcases hq : postLookup p lk with r | ⟨ev', bodyRest⟩
        · simp [procLoop, hp, hq] at h
        · rcases sends with _ | ⟨b, sends'⟩
          · simp [procLoop, hp, hq] at h
            rcases h with h | h
            · subst h
              exact postLookup_ok_type p lk _ _ hq
            · exact ih _ _ _ h
          · cases b
            · simp [procLoop, hp, hq] at h
            · simp [procLoop, hp, hq] at h
              rcases h with h | h
              · subst h
                exact postLookup_ok_type p lk _ _ hq
              · exact ih _ _ _ h

/-! Claim theorems. -/

/-- C1.  On the spec's worked example (stream value type=CheckResult,
host=h1, service=s1, timestamp=1000, state=2, output "disk full",
lookup envelope whose vars.tags is the array ["prod"]), processResponse
does NOT complete and dispatch the canonical event: the unchecked
assertion tags = val.([]string) at api_client.go line 216 fails, because
a decoded JSON array has dynamic type []interface, so the run panics
after the enrichment request and no event reaches the sink. -/
theorem c1_worked_example_panics :
    processResponse "srv" [some c1StreamVal] [some ⟨200, [some c1LookupVal]⟩] [true]
      = ⟨.panic (.typeAssert "tags as string slice"), [],
          ["https://srv/v1/objects/services/h1!s1"]⟩ := rfl

/-- C2.  The classification table maps state codes 0, 1, 2, 3 to ok,
warning, critical, unknown respectively, both in the stateOf switch and
in the state field of the dispatched event; and for every other integer
state code n, processResponse returns the unknown-state error with no
event dispatched, regardless of the lookup and sink environments, rather
than defaulting the state. -/
theorem state_code_mapping (server h o : String) (t n : Int)
    (lks : List (Option HttpResp)) (sends : List Bool)
    (h0 : n ≠ 0) (h1 : n ≠ 1) (h2 : n ≠ 2) (h3 : n ≠ 3) :
    stateOf 0 = "ok" ∧ stateOf 1 = "warning" ∧ stateOf 2 = "critical" ∧ stateOf 3 = "unknown" ∧
    (processResponse server [some (mkHostCheck h t 0 o)] [some respNoTags] [true]).events.map
        Event.state = ["ok"] ∧
    (processResponse server [some (mkHostCheck h t 1 o)] [some respNoTags] [true]).events.map
        Event.state = ["warning"] ∧
    (processResponse server [some (mkHostCheck h t 2 o)] [some respNoTags] [true]).events.map
        Event.state = ["critical"] ∧
    (processResponse server [some (mkHostCheck h t 3 o)] [some respNoTags] [true]).events.map
        Event.state = ["unknown"] ∧
    processResponse server [some (mkHostCheck h t n o)] lks sends
      = ⟨.err (.unknownState n), [], []⟩ := by
  refine ⟨rfl, rfl, rfl, rfl, rfl, rfl, rfl, rfl, ?_⟩
  have hpre : preStep (mkHostCheck h t n o) = .error (.err (.unknownState n)) := by
    simp [preStep, mkHostCheck, getKey, asObj?, asNum?, asStr?, stateOf, h0, h1, h2, h3]
  cases lks <;> simp [processResponse, procLoop, hpre]

/-- C2 witness: instantiated at state code 7. -/
theorem state_code_mapping_witness :
    stateOf 0 = "ok" ∧ stateOf 1 = "warning" ∧ stateOf 2 = "critical" ∧ stateOf 3 = "unknown" ∧
    (processResponse "srv" [some (mkHostCheck "h" 5 0 "o")] [some respNoTags] [true]).events.map
        Event.state = ["ok"] ∧
    (processResponse "srv" [some (mkHostCheck "h" 5 1 "o")] [some respNoTags] [true]).events.map
        Event.state = ["warning"] ∧
    (processResponse "srv" [some (mkHostCheck "h" 5 2 "o")] [some respNoTags] [true]).events.map
        Event.state = ["critical"] ∧
    (processResponse "srv" [some (mkHostCheck "h" 5 3 "o")] [some respNoTags] [true]).events.map
        Event.state = ["unknown"] ∧
    processResponse "srv" [some (mkHostCheck "h" 5 7 "o")] [] []
      = ⟨.err (.unknownState 7), [], []⟩ :=
  state_code_mapping "srv" "h" "o" 5 7 [] [] (by decide) (by decide) (by decide) (by decide)

/-- C3.  The enrichment lookup does NOT fail with a LookupError on a
non-200 status or an empty results list: the status code of the lookup
response is never read, so a 500 response with a decodable body still
leads to a dispatched event, and an empty results list panics with an
index-out-of-range at result[0] (api_client.go line 210) instead of
returning an error value. -/
theorem c3_lookup_status_unchecked :
    processResponse "srv" [some c1StreamVal] [some ⟨500, [some (envelope [])]⟩] [true]
      = ⟨.ok, [⟨"h1", "s1", "service", 1000, "critical", "disk full", "tags: []", []⟩],
          ["https://srv/v1/objects/services/h1!s1"]⟩ ∧
    processResponse "srv" [some c1StreamVal]
        [some ⟨200, [some (GoVal.obj [("results", .arr [])])]⟩] [true]
      = ⟨.panic .indexOutOfRange, [], ["https://srv/v1/objects/services/h1!s1"]⟩ :=
  ⟨rfl, rfl⟩

/-- C4.  A recognized stream value lacking a required field, or with a
wrongly typed field, does NOT fail with a structured MalformedEvent
error: a CheckResult with no check_result field panics at the unchecked
assertion on line 158, and a numeric output field panics at the output
assertion on line 225, in both cases crashing instead of returning a
decode error. -/
theorem c4_missing_field_panics :
    processResponse "srv" [some (GoVal.obj [("type", .str "CheckResult"), ("host", .str "h1"),
        ("timestamp", .num 1000)])] [] []
      = ⟨.panic (.typeAssert "check_result as map"), [], []⟩ ∧
    processResponse "srv" [some (GoVal.obj [("type", .str "CheckResult"), ("host", .str "h1"),
        ("service", .str "s1"), ("timestamp", .num 1000),
        ("check_result", .obj [("state", .num 2), ("output", .num 5)])])]
        [some respNoTags] [true]
      = ⟨.panic (.typeAssert "output as string"), [],
          ["https://srv/v1/objects/services/h1!s1"]⟩ :=
  ⟨rfl, rfl⟩

/-- C5.  For every recognized event with a service field, the enrichment
request goes to the services path with the composite name host!service
and the dispatched event's check is the service name; without a service
field it goes to the hosts path with the host name and check is the
host-level marker "HOST". -/
theorem service_path_selection (server h s o : String) (t : Int) :
    (processResponse server [some (mkSvcCheck h s t 2 o)] [some respNoTags] [true]).urls
        = [varUrl server "services" (h ++ "!" ++ s)] ∧
    (processResponse server [some (mkSvcCheck h s t 2 o)] [some respNoTags] [true]).events.map
        Event.check = [s] ∧
    (processResponse server [some (mkHostCheck h t 2 o)] [some respNoTags] [true]).urls
        = [varUrl server "hosts" h] ∧
    (processResponse server [some (mkHostCheck h t 2 o)] [some respNoTags] [true]).events.map
        Event.check = ["HOST"] :=
  ⟨rfl, rfl, rfl, rfl⟩

/-- C6.  For every lookup envelope whose vars object has no tags field,
enrichment succeeds: the event is dispatched with an empty tag list and
processResponse returns nil, not an error. -/
theorem tags_absent_empty (server h s o : String) (t : Int) (vs : List (String × GoVal))
    (hv : getKey vs "tags" = none) :
    processResponse server [some (mkSvcCheck h s t 2 o)] [some ⟨200, [some (envelope vs)]⟩] [true]
      = ⟨.ok, [⟨h, s, "service", t, "critical", o, detailsOf [], []⟩],
          [varUrl server "services" (h ++ "!" ++ s)]⟩ := by
  simp [processResponse, procLoop, preStep, postLookup, mkSvcCheck, envelope, getKey,
        asObj?, asNum?, asStr?, asArr?, asStrArr?, stateOf, goFmtS, hv, varUrl]

/-- C6 witness: a vars object holding only an env field. -/
theorem tags_absent_empty_witness :
    processResponse "srv" [some (mkSvcCheck "h1" "s1" 1000 2 "all good")]
        [some ⟨200, [some (envelope [("env", .str "prod")])]⟩] [true]
      = ⟨.ok, [⟨"h1", "s1", "service", 1000, "critical", "all good", detailsOf [], []⟩],
          [varUrl "srv" "services" ("h1" ++ "!" ++ "s1")]⟩ :=
  tags_absent_empty "srv" "h1" "s1" "all good" 1000 [("env", .str "prod")] rfl

/-- C7.  A stream value whose type discriminator is neither CheckResult
nor StateChange makes processResponse return the unknown-type error at
once: no event is dispatched, no lookup is issued, and none of the later
stream values are processed, for any remaining stream, lookup and sink
environments. -/
theorem unknown_type_terminates (server ty : String) (rest : List (Option GoVal))
    (lks : List (Option HttpResp)) (sends : List Bool)
    (hc : ty ≠ "CheckResult") (hs : ty ≠ "StateChange") :
    processResponse server (some (GoVal.obj [("type", .str ty), ("host", .str "h")]) :: rest)
        lks sends
      = ⟨.err (.unknownType ty), [], []⟩ := by
  have hpre : preStep (GoVal.obj [("type", .str ty), ("host", .str "h")])
      = .error (.err (.unknownType ty)) := by
    simp [preStep, getKey, asObj?, goFmtS, hc, hs]
  cases lks <;> simp [processResponse, procLoop, hpre]

/-- C7 witness: a CommentAdded value followed by a valid CheckResult
that is never reached. -/
theorem unknown_type_terminates_witness :
    processResponse "srv"
        (some (GoVal.obj [("type", .str "CommentAdded"), ("host", .str "h")])
          :: [some c1StreamVal]) [some respNoTags] [true]
      = ⟨.err (.unknownType "CommentAdded"), [], []⟩ :=
  unknown_type_terminates "srv" "CommentAdded" [some c1StreamVal] [some respNoTags] [true]
    (by decide) (by decide)

/-- C8.  Events are NOT pulled from the stream after the first
recognized event: line 202 reassigns the loop's decoder to the
enrichment response body.  First run: a stream carrying two CheckResult
values processes only the first and returns nil, silently dropping the
second.  Second run: JSON values trailing in the enrichment response
body are processed as if they were stream events, so the sink receives
an event (host h3) that was never on the stream while the stream's
second value is still dropped. -/
theorem c8_decoder_rebinding :
    processResponse "srv" [some (mkSvcCheck "h1" "s1" 1000 2 "disk full"),
                           some (mkSvcCheck "h2" "s2" 2000 1 "warn")]
        [some respNoTags, some respNoTags] [true, true]
      = ⟨.ok, [⟨"h1", "s1", "service", 1000, "critical", "disk full", "tags: []", []⟩],
          ["https://srv/v1/objects/services/h1!s1"]⟩ ∧
    processResponse "srv" [some (mkSvcCheck "h1" "s1" 1000 2 "disk full"),
                           some (mkSvcCheck "h2" "s2" 2000 1 "warn")]
        [some ⟨200, [some (envelope []), some (mkHostCheck "h3" 3000 0 "fine")]⟩,
         some respNoTags] [true, true]
      = ⟨.ok, [⟨"h1", "s1", "service", 1000, "critical", "disk full", "tags: []", []⟩,
               ⟨"h3", "HOST", "service", 3000, "ok", "fine", "tags: []", []⟩],
          ["https://srv/v1/objects/services/h1!s1", "https://srv/v1/objects/hosts/h3"]⟩ :=
  ⟨rfl, rfl⟩

/-- C9.  Every event processResponse hands to the sink carries the
literal type discriminator "service", for any stream, lookup and sink
environment, host-level events included. -/
theorem dispatched_type_service (server : String) (stream : List (Option GoVal))
    (lks : List (Option HttpResp)) (sends : List Bool) (ev : Event)
    (h : ev ∈ (processResponse server stream lks sends).events) :
    ev.type = "service" :=
  procLoop_type server lks stream sends ev h

/-- C9 witness: the host-level event of a concrete run. -/
theorem dispatched_type_service_witness :
    Event.type ⟨"h3", "HOST", "service", 3000, "ok", "fine", "tags: []", []⟩ = "service" :=
  dispatched_type_service "srv" [some (mkHostCheck "h3" 3000 0 "fine")] [some respNoTags]
    [true] _ (by decide)

/-- C10.  Connect's loop sends on the finished channel and stops exactly
when an iteration's error is non-nil; a clean processResponse return
(nil) yields a nil iteration error, so the loop silently issues another
HTTP request without notifying the caller. -/
theorem connect_finishes_iff_error (a : IterOutcome) (rest : List IterOutcome) :
    (∀ e, iterErr a = some e → connectLoop (a :: rest) = (some e, 1)) ∧
    (iterErr a = none →
       connectLoop (a :: rest) = ((connectLoop rest).1, (connectLoop rest).2 + 1)) ∧
    (∀ e : ProcError, iterErr (.okStream (some e)) = some (.fromStream e)) ∧
    iterErr (.okStream none) = none := by
  refine ⟨?_, ?_, fun e => rfl, rfl⟩
  · intro e he
    simp [connectLoop, he]
  · intro he
    simp [connectLoop, he]

/-- C10 witness: a failed request signals and stops; a clean stream end
re-issues the request. -/
theorem connect_finishes_iff_error_witness :
    connectLoop [.doFail] = (some .httpDo, 1) ∧
    connectLoop [.okStream none] = ((connectLoop []).1, (connectLoop []).2 + 1) :=
  ⟨(connect_finishes_iff_error .doFail []).1 .httpDo rfl,
   (connect_finishes_iff_error (.okStream none) []).2.1 rfl⟩

end Icinga


